import Mathlib

/-!
Verification of `auto_checkin.py` (repository baibiao258/daka6).

The file gives a shallow embedding of the script's decision logic:
the unbounded login retry loop (`login_unlimited`), the submit-button
selector fallback chain and last-resort button scan inside `do_checkin`,
the exit-code behaviour of `main`, and the guard of `send_notification`.
External effects (browser waits, fills, clicks, reloads, sleeps) are
recorded as events or summarised by boolean outcome fields supplied by
an environment value, so that each control-flow path of the Python code
corresponds to one branch of the Lean definitions.
-/

namespace AutoCheckin

/-- An element handle returned by the page, as far as the script inspects
it: its inner text and its class attribute. -/
structure Element where
  innerText : String
  className : String
deriving DecidableEq, Repr

/-- Observable page interactions performed by one attempt of the login
loop. `fillCaptcha code` is the call
`page.fill('input[type="text"][placeholder="请输入验证码"]', captcha_text)`;
`reload` is `page.reload(...)`; `sleep n` is `asyncio.sleep(n)`;
`clickLogin` is clicking the located login button, `pressEnter` the
keyboard fallback, and `clickKnow` the dismissal of the "我知道了" popup. -/
inductive Event where
  | fillUser (u : String)
  | fillPass (p : String)
  | fillCaptcha (code : String)
  | clickLogin
  | pressEnter
  | clickKnow
  | reload
  | sleep (secs : Nat)
deriving DecidableEq, Repr

/-- The login page address, `self.login_url` in `AutoCheckin.__init__`. -/
def loginUrl : String := "https://qd.dxssxdk.com/lanhu_yonghudenglu"

/-- The environment's behaviour during one iteration of the
`while True` loop of `login_unlimited` (source lines 144-216):

* `fillOk` — the `wait_for_selector`/`fill` calls for the username and
  password inputs complete without raising (lines 150-158); when false
  the iteration raises, is caught by the `except` at line 214, and the
  loop continues after `asyncio.sleep(2)`;
* `captchaText` — the string returned by `solve_captcha` (empty string
  means recognition failed);
* `loginButtonFound` — whether `query_selector` for the login button
  returns an element (line 176); otherwise Enter is pressed;
* `popupShown` — whether the "我知道了" dialog button appears
  (lines 190-201);
* `urlAfter` — `page.url` observed at line 204 after the settle delay. -/
structure AttemptEnv where
  fillOk : Bool
  captchaText : String
  loginButtonFound : Bool
  popupShown : Bool
  urlAfter : String

/-- One iteration of the login loop body (source lines 148-216): returns
whether the iteration executed `return True`, together with the list of
page interactions it performed. The three branches are: the locate/fill
exception path (caught at line 214: log, sleep 2, no reload); the
empty-captcha path (lines 163-168: reload, sleep 2, `continue`); and the
submit path (lines 171-212), which succeeds exactly when the page
address after submission differs from the login address. -/
def attemptStep (username password : String) (env : AttemptEnv) : Bool × List Event :=
  if env.fillOk = false then
    (false, [Event.sleep 2])
  else if env.captchaText = "" then
    (false, [Event.fillUser username, Event.fillPass password, Event.reload, Event.sleep 2])
  else
    let submitEv := if env.loginButtonFound = true then Event.clickLogin else Event.pressEnter
    let popupEvs := if env.popupShown = true then [Event.clickKnow, Event.sleep 1] else []
    let evs := [Event.fillUser username, Event.fillPass password,
      Event.fillCaptcha env.captchaText, submitEv, Event.sleep 3] ++ popupEvs
    if env.urlAfter = loginUrl then (false, evs ++ [Event.sleep 2]) else (true, evs)

/-- The `while True` loop of `login_unlimited`, run for at most `fuel`
iterations (the Python loop has no bound; `fuel` only truncates the
unfolding). `attempt` is the counter variable initialised to 0 at line
143 and incremented at the top of every iteration (line 145). Returns
the attempt number at which `return True` fired (or `none` if the loop
is still running after `fuel` iterations), the concatenated event trace,
and the list of attempt-counter values taken. -/
def loginLoop (username password : String) (envs : Nat → AttemptEnv) :
    Nat → Nat → Option Nat × List Event × List Nat
  | _, 0 => (none, [], [])
  | attempt, fuel + 1 =>
    let step := attemptStep username password (envs (attempt + 1))
    if step.1 = true then
      (some (attempt + 1), step.2, [attempt + 1])
    else
      let rest := loginLoop username password envs (attempt + 1) fuel
      (rest.1, step.2 ++ rest.2.1, (attempt + 1) :: rest.2.2)

/-- Environment of one run of `login_unlimited`: whether the initial
`page.goto(self.login_url, ...)` at line 137 completes without raising,
and the behaviour of each numbered attempt. -/
structure LoginWorld where
  gotoOk : Bool
  envs : Nat → AttemptEnv

/-- Possible returns of `login_unlimited`: `success` is `return True`
(line 208), `failure` is `return False` in the outer `except` handler
(line 220). -/
inductive LoopOutcome where
  | success
  | failure
deriving DecidableEq, Repr

/-- The whole of `login_unlimited` (source lines 126-220), with the loop
unfolded `fuel` times: if the initial navigation raises, the outer
`except` returns `False`; otherwise the loop runs, returning `True` on
a successful attempt and never exiting otherwise (`none` = still
running after `fuel` iterations). The leading `sleep 2` is line 141. -/
def login_unlimited (username password : String) (w : LoginWorld) (fuel : Nat) :
    Option LoopOutcome × List Event :=
  if w.gotoOk = true then
    let run := loginLoop username password w.envs 0 fuel
    (run.1.map (fun _ => LoopOutcome.success), Event.sleep 2 :: run.2.1)
  else
    (some LoopOutcome.failure, [])

/-- Outcome of one iteration of the submit-selector loop of `do_checkin`
(source lines 326-334) for one selector string: `timeout` — the bounded
`wait_for_selector` raised or returned nothing (the bare `except`
continues to the next candidate); `found e` — the wait returned `e`
and the subsequent `inner_text` logging succeeded, so the loop breaks;
`foundNoText e` — the wait returned `e` but reading its text raised,
so `submit_button` holds `e` while the loop moves on (the Python
variable keeps its value across iterations). -/
inductive SelOutcome where
  | timeout
  | found (e : Element)
  | foundNoText (e : Element)
deriving DecidableEq, Repr

/-- The `for selector in selectors` loop of `do_checkin` with current
value `cur` of the Python variable `submit_button`: returns the final
value of `submit_button` and the number of candidates evaluated. -/
def locateFrom (evalSel : String → SelOutcome) (cur : Option Element) :
    List String → Option Element × Nat
  | [] => (cur, 0)
  | s :: rest =>
    match evalSel s with
    | SelOutcome.found e => (some e, 1)
    | SelOutcome.timeout =>
      let r := locateFrom evalSel cur rest
      (r.1, r.2 + 1)
    | SelOutcome.foundNoText e =>
      let r := locateFrom evalSel (some e) rest
      (r.1, r.2 + 1)

/-- The selector loop started with `submit_button = None` (line 313). -/
def locate (evalSel : String → SelOutcome) (cands : List String) : Option Element × Nat :=
  locateFrom evalSel none cands

/-- The 7-entry prioritized submit-selector chain (source lines 316-324). -/
def selectors : List String :=
  ["button.action-btn:has-text(\"提交打卡\")",
   "button:has-text(\"提交打卡\")",
   "button:has-text(\"打卡\")",
   "button:has-text(\"提交\")",
   ".action-btn",
   "button[class*=\"action\"]",
   "button[class*=\"submit\"]"]

/-- The submit label looked for by the last-resort scan, line 349. -/
def submitLabel : String := "提交打卡"

/-- Character-list version of the Python substring test `needle in hay`. -/
def pyInAux (needle : List Char) : List Char → Bool
  | [] => List.isEmpty needle
  | c :: t => List.isPrefixOf needle (c :: t) || pyInAux needle t

/-- The Python membership test `needle in hay` on strings. -/
def pyMem (needle hay : String) : Bool := pyInAux needle.toList hay.toList

/-- One entry of the full button inventory (`query_selector_all('button')`,
line 340): `readOk` is whether `inner_text`/`get_attribute` complete
without raising (the per-button `except` at line 353 otherwise skips
the button), `el` the element itself. -/
structure BtnEntry where
  readOk : Bool
  el : Element
deriving DecidableEq, Repr

/-- The last-resort scan over all buttons (source lines 343-354): the
first readable button whose inner text contains `'提交打卡'` (Python
`in`, i.e. substring containment) is selected; otherwise no button. -/
def scanButtons : List BtnEntry → Option Element
  | [] => none
  | b :: rest =>
    if b.readOk && pyMem submitLabel b.el.innerText then some b.el
    else scanButtons rest

/-- The environment's behaviour during one run of `do_checkin`:

* `navTextOk` — step 1 first way (lines 257-263): the text selector for
  the "账号列表" item resolves and the click succeeds;
* `navItemCount` — number of `.nav-item` elements found by the fallback
  (line 276); * `navFallbackOk` — clicking the second item succeeds;
* `expandOk` — step 2 (lines 295-300): the 3-way expand selector chain
  resolves and the click succeeds;
* `evalSel` — outcome of the bounded wait for each submit selector;
* `buttons` — the full button inventory for the last-resort scan;
* `clickOk` — `submit_button.click()` at line 368 completes without
  raising (when it raises, the outer `except` at line 424 returns
  `False`). -/
structure CheckinEnv where
  navTextOk : Bool
  navItemCount : Nat
  navFallbackOk : Bool
  expandOk : Bool
  evalSel : String → SelOutcome
  buttons : List BtnEntry
  clickOk : Bool

/-- The final value of the Python variable `submit_button` before step 4:
the selector chain's result if it holds an element, otherwise the result
of the full inventory scan (which runs only `if not submit_button`,
line 337). -/
def locatedSubmit (env : CheckinEnv) : Option Element :=
  match (locate env.evalSel selectors).1 with
  | some e => some e
  | none => scanButtons env.buttons

/-- Observable outcome of one run of `do_checkin` (source lines 222-436):
the two step-status flags the code maintains, the located submit control,
whether the click on it completed, and the returned boolean. -/
structure CheckinRun where
  accountListClicked : Bool
  expandClicked : Bool
  submitFound : Option Element
  clickIssued : Bool
  result : Bool
deriving DecidableEq, Repr

/-- The `do_checkin` coroutine. Step 1 sets `account_list_clicked` via
the text selector or, on exception, via the second `.nav-item`; its
failure only logs (line 286) and processing continues. Step 2 sets
`expand_clicked`; its failure only logs a warning (line 309). Step 3
locates the submit control; step 4 clicks it and returns `True`
(line 405), returns `False` when nothing was found (line 422), and
returns `False` through the outer `except` when the click raises. -/
def do_checkin (env : CheckinEnv) : CheckinRun :=
  let nav := env.navTextOk || (decide (2 ≤ env.navItemCount) && env.navFallbackOk)
  match locatedSubmit env with
  | some e =>
    if env.clickOk = true then
      { accountListClicked := nav, expandClicked := env.expandOk,
        submitFound := some e, clickIssued := true, result := true }
    else
      { accountListClicked := nav, expandClicked := env.expandOk,
        submitFound := some e, clickIssued := false, result := false }
  | none =>
    { accountListClicked := nav, expandClicked := env.expandOk,
      submitFound := none, clickIssued := false, result := false }

/-- Process-level inputs of `main` (source lines 539-588): the two
credential environment variables, the argument vector (`sys.argv`,
whose head is the script name), and the outcome of `checkin.run()`. -/
structure MainEnv where
  envUsername : String
  envPassword : String
  argv : List String
  runSuccess : Bool

/-- Exit code of the process running `main`: when a credential is
missing from the environment, the arguments are used if `sys.argv` has
at least 3 entries; otherwise `main` logs an error and returns plainly
(lines 555-557), so the process exits with code 0. A completed run
exits 0 on success, and `sys.exit(1)` fires on failure (line 588). -/
def main (m : MainEnv) : Nat :=
  if m.envUsername = "" ∨ m.envPassword = "" then
    if 3 ≤ m.argv.length then
      if m.runSuccess then 0 else 1
    else 0
  else
    if m.runSuccess then 0 else 1

/-- The POST request `send_notification` builds (source lines 514-528):
the WxPusher endpoint and the JSON payload fields. -/
structure HttpPost where
  url : String
  appToken : String
  content : String
  summary : String
  contentType : Nat
  uids : List String
  verifyPay : Bool
deriving DecidableEq, Repr

/-- `send_notification` (source lines 501-537): returns the HTTP request
it attempts, or `none` when it returns immediately because the app token
or the uid is empty (line 511: `if not app_token or not uid: return`). -/
def send_notification (app_token uid title message : String) : Option HttpPost :=
  if app_token = "" ∨ uid = "" then none
  else
    some { url := "https://wxpusher.zjiecode.com/api/send/message",
           appToken := app_token,
           content := "# " ++ title ++ "\n\n" ++ message,
           summary := title,
           contentType := 3,
           uids := [uid],
           verifyPay := false }

/-! Concrete environments used to evaluate the definitions on closed inputs. -/

/-- An attempt in which locating or filling the credential inputs raises. -/
def fillFailEnv : AttemptEnv :=
  { fillOk := false, captchaText := "AB12", loginButtonFound := true,
    popupShown := false, urlAfter := "https://qd.dxssxdk.com/home" }

/-- An attempt that fills, submits, and lands away from the login page. -/
def okEnv : AttemptEnv :=
  { fillOk := true, captchaText := "AB12", loginButtonFound := true,
    popupShown := false, urlAfter := "https://qd.dxssxdk.com/home" }

/-- An attempt whose page address still equals the login address. -/
def stayEnv : AttemptEnv :=
  { fillOk := true, captchaText := "AB12", loginButtonFound := true,
    popupShown := false, urlAfter := loginUrl }

/-- An attempt in which the CAPTCHA solver returns the empty string. -/
def emptyCaptchaEnv : AttemptEnv :=
  { fillOk := true, captchaText := "", loginButtonFound := true,
    popupShown := false, urlAfter := loginUrl }

/-- A run in which the initial navigation to the login page raises. -/
def gotoFailWorld : LoginWorld := { gotoOk := false, envs := fun _ => okEnv }

/-- A run in which every attempt fails at the locate/fill step. -/
def retryWorld : LoginWorld := { gotoOk := true, envs := fun _ => fillFailEnv }

/-- A run in which the CAPTCHA solver always returns the empty string. -/
def emptyWorld : LoginWorld := { gotoOk := true, envs := fun _ => emptyCaptchaEnv }

/-- The submit button element found in the examples. -/
def actionBtn : Element := { innerText := "提交打卡", className := "action-btn" }

/-- A page in which only the fifth selector of the chain matches. -/
def c2eval : String → SelOutcome :=
  fun s => if s = ".action-btn" then SelOutcome.found actionBtn else SelOutcome.timeout

/-- The first four selectors of the chain (the ones before `.action-btn`). -/
def c2pre : List String :=
  ["button.action-btn:has-text(\"提交打卡\")",
   "button:has-text(\"提交打卡\")",
   "button:has-text(\"打卡\")",
   "button:has-text(\"提交\")"]

/-- The selectors of the chain after `.action-btn`. -/
def c2post : List String :=
  ["button[class*=\"action\"]", "button[class*=\"submit\"]"]

/-- A page on which every bounded selector wait times out. -/
def timeoutEval : String → SelOutcome := fun _ => SelOutcome.timeout

/-- A login run where the first attempt fails at locate/fill and the
second succeeds. -/
def c7envs : Nat → AttemptEnv := fun a => if a = 1 then fillFailEnv else okEnv

/-- A checkin run whose navigation and expand steps succeed. -/
def c4envA : CheckinEnv :=
  { navTextOk := true, navItemCount := 2, navFallbackOk := true, expandOk := true,
    evalSel := c2eval, buttons := [], clickOk := true }

/-- The same checkin page state with both navigation ways and the expand
step failing. -/
def c4envB : CheckinEnv :=
  { navTextOk := false, navItemCount := 0, navFallbackOk := false, expandOk := false,
    evalSel := c2eval, buttons := [], clickOk := true }

/-- A button whose inner text strictly contains the submit label. -/
def c6btn : BtnEntry := { readOk := true, el := { innerText := "重新提交打卡", className := "retry-btn" } }

/-- A checkin run in which the whole selector chain times out and the
inventory holds only `c6btn`. -/
def c6env : CheckinEnv :=
  { navTextOk := false, navItemCount := 0, navFallbackOk := false, expandOk := false,
    evalSel := timeoutEval, buttons := [c6btn], clickOk := true }

/-- A process start with no credentials in the environment and no
positional arguments beyond the script name. -/
def c5miss : MainEnv :=
  { envUsername := "", envPassword := "", argv := ["auto_checkin.py"], runSuccess := false }

/-- A process start with credentials present and a failing run. -/
def c5run : MainEnv :=
  { envUsername := "user", envPassword := "pass", argv := ["auto_checkin.py"], runSuccess := false }

/-! Helper lemmas shared by the claim theorems. -/

/-- A locate/fill failure produces exactly a retry with a 2-unit sleep. -/
theorem attemptStep_fillFail (username password : String) (env : AttemptEnv)
    (h : env.fillOk = false) :
    attemptStep username password env = (false, [Event.sleep 2]) := by
  simp [attemptStep, h]

/-- An empty CAPTCHA result produces a retry whose trace is: fill the
credentials, reload the page, sleep 2. -/
theorem attemptStep_emptyCaptcha (username password : String) (env : AttemptEnv)
    (h1 : env.fillOk = true) (h2 : env.captchaText = "") :
    attemptStep username password env =
      (false, [Event.fillUser username, Event.fillPass password,
        Event.reload, Event.sleep 2]) := by
  simp [attemptStep, h1, h2]

/-- An attempt with an empty CAPTCHA result never succeeds. -/
theorem attemptStep_empty_fails (username password : String) (env : AttemptEnv)
    (h2 : env.captchaText = "") :
    (attemptStep username password env).1 = false := by
  by_cases h1 : env.fillOk = false <;> simp [attemptStep, h1, h2]

/-- An attempt with an empty CAPTCHA result performs no captcha fill at all. -/
theorem attemptStep_empty_no_fill (username password : String) (env : AttemptEnv)
    (h2 : env.captchaText = "") (s : String) :
    Event.fillCaptcha s ∉ (attemptStep username password env).2 := by
  by_cases h1 : env.fillOk = false <;> simp [attemptStep, h1, h2]

/-- No attempt ever fills the captcha input with the empty string: the
fill event always carries the solver's nonempty output. -/
theorem attemptStep_no_empty_fill (username password : String) (env : AttemptEnv) :
    Event.fillCaptcha "" ∉ (attemptStep username password env).2 := by
  by_cases h1 : env.fillOk = false
  · simp [attemptStep, h1]
  · by_cases h2 : env.captchaText = ""
    · simp [attemptStep, h1, h2]
    · by_cases h3 : env.urlAfter = loginUrl <;>
        by_cases h4 : env.loginButtonFound = true <;>
          by_cases h5 : env.popupShown = true <;>
            simp [attemptStep, h1, h2, h3, h4, h5, Ne.symm h2]

/-- An event absent from every attempt's trace is absent from the loop trace. -/
theorem loginLoop_event_absent (username password : String) (envs : Nat → AttemptEnv)
    (ev : Event) (h : ∀ a, ev ∉ (attemptStep username password (envs a)).2) :
    ∀ fuel attempt, ev ∉ (loginLoop username password envs attempt fuel).2.1 := by
  intro fuel
  induction fuel with
  | zero => intro attempt; simp [loginLoop]
  | succ n ih =>
    intro attempt
    simp only [loginLoop]
    by_cases hs : (attemptStep username password (envs (attempt + 1))).1 = true
    · simp [hs, h (attempt + 1)]
    · simp [hs, List.mem_append, h (attempt + 1), ih (attempt + 1)]

/-- When every attempt fails, the loop is still running after any number
of iterations and has consumed exactly that many attempts. -/
theorem loginLoop_allFail (username password : String) (envs : Nat → AttemptEnv)
    (h : ∀ a, (attemptStep username password (envs a)).1 = false) :
    ∀ fuel attempt, (loginLoop username password envs attempt fuel).1 = none ∧
      (loginLoop username password envs attempt fuel).2.2.length = fuel := by
  intro fuel
  induction fuel with
  | zero => intro attempt; exact ⟨rfl, rfl⟩
  | succ n ih =>
    intro attempt
    simp only [loginLoop]
    simp [h (attempt + 1), (ih (attempt + 1)).1, (ih (attempt + 1)).2]

/-- The attempt-counter values taken by the loop form a block of
consecutive integers starting at one more than the initial counter. -/
theorem loginLoop_attempts_aux (username password : String) (envs : Nat → AttemptEnv) :
    ∀ fuel attempt, ∃ k, k ≤ fuel ∧
      (loginLoop username password envs attempt fuel).2.2 =
        List.range' (attempt + 1) k := by
  intro fuel
  induction fuel with
  | zero => intro attempt; exact ⟨0, Nat.le_refl 0, rfl⟩
  | succ n ih =>
    intro attempt
    cases hs : (attemptStep username password (envs (attempt + 1))).1 with
    | true =>
      refine ⟨1, by omega, ?_⟩
      simp [loginLoop, hs, List.range'_succ]
    | false =>
      obtain ⟨k, hk, hr⟩ := ih (attempt + 1)
      refine ⟨k + 1, by omega, ?_⟩
      simp [loginLoop, hs, hr, List.range'_succ]

/-- The attempt counter takes exactly the consecutive values starting at
one more than its initial value. -/
theorem loginLoop_attempts (username password : String) (envs : Nat → AttemptEnv) :
    ∀ fuel attempt, (loginLoop username password envs attempt fuel).2.2 =
      List.range' (attempt + 1)
        (loginLoop username password envs attempt fuel).2.2.length := by
  intro fuel attempt
  obtain ⟨k, _, hr⟩ := loginLoop_attempts_aux username password envs fuel attempt
  rw [hr, List.length_range']

/-- The selector loop over an all-timeout candidate list keeps the
current value and evaluates every candidate. -/
theorem locateFrom_exhausted (evalSel : String → SelOutcome) (cur : Option Element)
    (cands : List String) (h : ∀ s ∈ cands, evalSel s = SelOutcome.timeout) :
    locateFrom evalSel cur cands = (cur, cands.length) := by
  induction cands with
  | nil => rfl
  | cons s rest ih =>
    have hs : evalSel s = SelOutcome.timeout := h s (List.mem_cons_self s rest)
    have ih2 := ih (fun x hx => h x (List.mem_cons_of_mem s hx))
    simp [locateFrom, hs, ih2]

/-- The selector loop short-circuits on the first matching candidate. -/
theorem locateFrom_first (evalSel : String → SelOutcome) (cur : Option Element)
    (pre post : List String) (c : String) (e : Element)
    (hpre : ∀ s ∈ pre, evalSel s = SelOutcome.timeout)
    (hc : evalSel c = SelOutcome.found e) :
    locateFrom evalSel cur (pre ++ c :: post) = (some e, pre.length + 1) := by
  induction pre generalizing cur with
  | nil => simp [locateFrom, hc]
  | cons s rest ih =>
    have hs : evalSel s = SelOutcome.timeout := hpre s (List.mem_cons_self s rest)
    have ih2 := ih cur (fun x hx => hpre x (List.mem_cons_of_mem s hx))
    simp [locateFrom, hs, ih2]

/-- The button scan is the first readable button whose inner text passes
the Python substring test. -/
theorem scanButtons_find (bs : List BtnEntry) :
    scanButtons bs = Option.map BtnEntry.el
      (List.find? (fun b => b.readOk && pyMem submitLabel b.el.innerText) bs) := by
  induction bs with
  | nil => rfl
  | cons b rest ih =>
    by_cases h : (b.readOk && pyMem submitLabel b.el.innerText) = true
    · simp [scanButtons, List.find?, h]
    · simp [scanButtons, List.find?, h, ih]

/-- The returned record always reports the located submit control. -/
theorem do_checkin_submitFound (env : CheckinEnv) :
    (do_checkin env).submitFound = locatedSubmit env := by
  cases h : locatedSubmit env
  · simp [do_checkin, h]
  · by_cases hck : env.clickOk = true <;> simp [do_checkin, h, hck]

/-- The located submit control only depends on the selector outcomes and
the button inventory. -/
theorem locatedSubmit_congr (env env2 : CheckinEnv) (hsel : env.evalSel = env2.evalSel)
    (hb : env.buttons = env2.buttons) : locatedSubmit env = locatedSubmit env2 := by
  simp [locatedSubmit, hsel, hb]

/-! Claim theorems. -/

/-- Claim C1, counterexample: when the initial navigation to the login
page raises, `login_unlimited` does return a failure value (the outer
handler executes `return False`), so it is not the case that every
return from it carries the success result. -/
theorem C1_counterexample :
    (login_unlimited "user" "pass" gotoFailWorld 5).1 = some LoopOutcome.failure := rfl

/-- Claim C1, amended: once the initial navigation to the login page
succeeds, `login_unlimited` never returns a failure value — every return
carries the success result — and when every attempt has a non-success
outcome the loop is still running after any number of iterations, so the
loop itself enforces no finite upper bound on attempts. -/
theorem C1_theorem (username password : String) (w : LoginWorld) (fuel : Nat)
    (hgoto : w.gotoOk = true) :
    (login_unlimited username password w fuel).1 ≠ some LoopOutcome.failure ∧
    ((∀ a, (attemptStep username password (w.envs a)).1 = false) →
      (login_unlimited username password w fuel).1 = none) := by
  constructor
  · simp only [login_unlimited, hgoto, if_true]
    cases h : (loginLoop username password w.envs 0 fuel).1 <;> simp [h]
  · intro hfail
    have hnone := (loginLoop_allFail username password w.envs hfail fuel 0).1
    simp [login_unlimited, hgoto, hnone]

/-- Claim C1, witness: a run whose navigation succeeds and whose every
attempt fails at the locate/fill step neither returns failure nor
returns at all within 3 iterations. -/
theorem C1_witness :
    (login_unlimited "user" "pass" retryWorld 3).1 ≠ some LoopOutcome.failure ∧
    (login_unlimited "user" "pass" retryWorld 3).1 = none :=
  ⟨ ( C1_theorem "user" "pass" retryWorld 3 rfl).1,
   ( C1_theorem "user" "pass" retryWorld 3 rfl).2 (fun _ => rfl)⟩

/-- Claim C3: in a run whose CAPTCHA solver returns the empty string on
every attempt, the loop never terminates within any number of
iterations, no captcha fill is ever performed on the whole trace (in
particular the captcha input is never filled with an empty string), and
every attempt that reaches the solver reloads the page before retrying. -/
theorem C3_theorem (username password : String) (w : LoginWorld) (fuel : Nat)
    (hgoto : w.gotoOk = true)
    (hempty : ∀ a, (w.envs a).captchaText = "") :
    (login_unlimited username password w fuel).1 = none ∧
    (∀ s, Event.fillCaptcha s ∉ (login_unlimited username password w fuel).2) ∧
    (∀ a, (w.envs a).fillOk = true →
      Event.reload ∈ (attemptStep username password (w.envs a)).2) := by
  have hfail : ∀ a, (attemptStep username password (w.envs a)).1 = false :=
    fun a => attemptStep_empty_fails username password (w.envs a) (hempty a)
  refine ⟨?_, ?_, ?_⟩
  · have hnone := (loginLoop_allFail username password w.envs hfail fuel 0).1
    simp [login_unlimited, hgoto, hnone]
  · intro s
    have habs := loginLoop_event_absent username password w.envs (Event.fillCaptcha s)
      (fun a => attemptStep_empty_no_fill username password (w.envs a) (hempty a) s) fuel 0
    simp [login_unlimited, hgoto, habs]
  · intro a hfill
    rw [attemptStep_emptyCaptcha username password (w.envs a) hfill (hempty a)]
    simp

/-- Claim C3, witness: the always-empty-solver run is still looping
after 2 iterations, its trace holds no captcha fill with the empty
string, and its first attempt reloads the page. -/
theorem C3_witness :
    (login_unlimited "user" "pass" emptyWorld 2).1 = none ∧
    Event.fillCaptcha "" ∉ (login_unlimited "user" "pass" emptyWorld 2).2 ∧
    Event.reload ∈ (attemptStep "user" "pass" (emptyWorld.envs 1)).2 :=
  ⟨ ( C3_theorem "user" "pass" emptyWorld 2 rfl (fun _ => rfl)).1,
   ( C3_theorem "user" "pass" emptyWorld 2 rfl (fun _ => rfl)).2.1 "",
   ( C3_theorem "user" "pass" emptyWorld 2 rfl (fun _ => rfl)).2.2 1 rfl⟩

/-- Claim C7, counterexample: in a run whose first attempt fails at the
locate/fill step and whose second attempt succeeds, the whole trace up
to and including the second attempt holds no page reload — the failing
attempt only sleeps 2 time units, so no reload happens before the next
attempt, contrary to the claim. -/
theorem C7_counterexample :
    (loginLoop "user" "pass" c7envs 0 2).2.2 = [1, 2] ∧
    (loginLoop "user" "pass" c7envs 0 2).2.1 =
      [Event.sleep 2, Event.fillUser "user", Event.fillPass "pass",
       Event.fillCaptcha "AB12", Event.clickLogin, Event.sleep 3] ∧
    Event.reload ∉ (loginLoop "user" "pass" c7envs 0 2).2.1 := by decide

/-- Claim C7, amended: when locating or filling the form fails with a
transient error, the loop continues to the next iteration after a
constant (not exponential) backoff delay of 2 time units; no page reload
occurs in this error path (the reload happens only when the CAPTCHA
solver returns the empty string). -/
theorem C7_theorem (username password : String) (env : AttemptEnv)
    (h : env.fillOk = false) :
    attemptStep username password env = (false, [Event.sleep 2]) ∧
    Event.reload ∉ (attemptStep username password env).2 := by
  have hstep := attemptStep_fillFail username password env h
  refine ⟨hstep, ?_⟩
  rw [hstep]
  simp

/-- Claim C7, witness: the locate/fill-failure attempt retries after
exactly a 2-unit sleep and without a reload. -/
theorem C7_witness :
    attemptStep "user" "pass" fillFailEnv = (false, [Event.sleep 2]) ∧
    Event.reload ∉ (attemptStep "user" "pass" fillFailEnv).2 :=
  C7_theorem "user" "pass" fillFailEnv rfl

/-- Claim C8: for an attempt that fills the form and a nonempty CAPTCHA
code, the attempt succeeds exactly when the page address observed after
the settle delay differs from the login address; when the address still
equals the login address the attempt is failed and the loop goes on to
the next attempt. -/
theorem C8_theorem (username password : String) (env : AttemptEnv)
    (hfill : env.fillOk = true) (hcap : env.captchaText ≠ "") :
    ((attemptStep username password env).1 = true ↔ env.urlAfter ≠ loginUrl) ∧
    (env.urlAfter = loginUrl → (attemptStep username password env).1 = false) ∧
    (∀ (envs : Nat → AttemptEnv) (attempt fuel : Nat),
      envs (attempt + 1) = env → env.urlAfter = loginUrl →
      (loginLoop username password envs attempt (fuel + 1)).2.2 =
        (attempt + 1) :: (loginLoop username password envs (attempt + 1) fuel).2.2) := by
  have hiff : (attemptStep username password env).1 = true ↔ env.urlAfter ≠ loginUrl := by
    by_cases hurl : env.urlAfter = loginUrl <;> simp [attemptStep, hfill, hcap, hurl]
  refine ⟨hiff, ?_, ?_⟩
  · intro hurl
    cases hv : (attemptStep username password env).1 with
    | false => rfl
    | true => exact absurd (hiff.mp hv) (fun hne => hne hurl)
  · intro envs attempt fuel henv hurl
    have hfalse : (attemptStep username password (envs (attempt + 1))).1 = false := by
      rw [henv]
      cases hv : (attemptStep username password env).1 with
      | false => rfl
      | true => exact absurd (hiff.mp hv) (fun hne => hne hurl)
    simp [loginLoop, hfalse]

/-- Claim C8, witness: the attempt landing away from the login page
succeeds, the attempt staying on it fails, and the loop then continues
to attempt 2. -/
theorem C8_witness :
    ((attemptStep "user" "pass" okEnv).1 = true ↔ okEnv.urlAfter ≠ loginUrl) ∧
    ((attemptStep "user" "pass" stayEnv).1 = true ↔ stayEnv.urlAfter ≠ loginUrl) ∧
    (loginLoop "user" "pass" (fun _ => stayEnv) 0 3).2.2 =
      1 :: (loginLoop "user" "pass" (fun _ => stayEnv) 1 2).2.2 :=
  ⟨ ( C8_theorem "user" "pass" okEnv rfl (by decide)).1,
   ( C8_theorem "user" "pass" stayEnv rfl (by decide)).1,
   ( C8_theorem "user" "pass" stayEnv rfl (by decide)).2.2 (fun _ => stayEnv) 0 2 rfl rfl⟩

/-- Claim C9: the attempt counter of the login loop starts at 1 and
increases by exactly one on every iteration — its values are the
consecutive integers 1, 2, ... — and when no attempt succeeds it keeps
growing with the number of iterations, unboundedly. -/
theorem C9_theorem (username password : String) (envs : Nat → AttemptEnv) (fuel : Nat) :
    (loginLoop username password envs 0 fuel).2.2 =
      List.range' 1 (loginLoop username password envs 0 fuel).2.2.length ∧
    ((∀ a, (attemptStep username password (envs a)).1 = false) →
      (loginLoop username password envs 0 fuel).2.2.length = fuel) :=
  ⟨loginLoop_attempts username password envs fuel 0,
   fun hfail => (loginLoop_allFail username password envs hfail fuel 0).2⟩

/-- Claim C9, witness: four all-failing iterations take the counter
values 1, 2, 3, 4. -/
theorem C9_witness :
    (loginLoop "user" "pass" (fun _ => fillFailEnv) 0 4).2.2 =
      List.range' 1 (loginLoop "user" "pass" (fun _ => fillFailEnv) 0 4).2.2.length ∧
    (loginLoop "user" "pass" (fun _ => fillFailEnv) 0 4).2.2.length = 4 :=
  ⟨ ( C9_theorem "user" "pass" (fun _ => fillFailEnv) 4).1,
   ( C9_theorem "user" "pass" (fun _ => fillFailEnv) 4).2 (fun _ => rfl)⟩

/-- Claim C2: for every ordered candidate list in which some candidate
matches while all earlier ones time out, the selector loop returns the
element found by that candidate having evaluated exactly the candidates
up to it — so the next candidate is never evaluated — and when every
candidate times out it yields no element after evaluating the whole
list. -/
theorem C2_theorem :
    (∀ (evalSel : String → SelOutcome) (pre post : List String) (c : String) (e : Element),
      (∀ s ∈ pre, evalSel s = SelOutcome.timeout) →
      evalSel c = SelOutcome.found e →
      locate evalSel (pre ++ c :: post) = (some e, pre.length + 1)) ∧
    (∀ (evalSel : String → SelOutcome) (cands : List String),
      (∀ s ∈ cands, evalSel s = SelOutcome.timeout) →
      locate evalSel cands = (none, cands.length)) :=
  ⟨fun evalSel pre post c e hpre hc =>
    locateFrom_first evalSel none pre post c e hpre hc,
   fun evalSel cands h => locateFrom_exhausted evalSel none cands h⟩

/-- Claim C2, witness: on a page where only the fifth selector of the
7-entry chain matches, the loop returns that element after evaluating
exactly 5 candidates, and on an all-timeout page it returns nothing
after evaluating all 7. -/
theorem C2_witness :
    locate c2eval selectors = (some actionBtn, 5) ∧
    locate timeoutEval selectors = (none, 7) :=
  ⟨ C2_theorem.1 c2eval c2pre c2post ".action-btn" actionBtn (by decide) (by decide),
   C2_theorem.2 timeoutEval selectors (fun _ _ => rfl)⟩

/-- Claim C4: `do_checkin` returns success exactly when a submit control
was located and the click on it was issued, and the returned result is
independent of the outcomes of the navigation and expand steps: two runs
agreeing on the selector outcomes, the button inventory and the click
outcome return the same result whatever their navigation and expand
outcomes are. -/
theorem C4_theorem (env env2 : CheckinEnv)
    (hsel : env.evalSel = env2.evalSel) (hb : env.buttons = env2.buttons)
    (hc : env.clickOk = env2.clickOk) :
    ((do_checkin env).result = true ↔
      ((do_checkin env).submitFound.isSome = true ∧ (do_checkin env).clickIssued = true)) ∧
    (do_checkin env).result = (do_checkin env2).result := by
  have hloc : locatedSubmit env2 = locatedSubmit env :=
    (locatedSubmit_congr env env2 hsel hb).symm
  constructor
  · cases h : locatedSubmit env
    · simp [do_checkin, h]
    · by_cases hck : env.clickOk = true <;> simp [do_checkin, h, hck]
  · cases h : locatedSubmit env with
    | none =>
      have h2 : locatedSubmit env2 = none := by rw [hloc, h]
      simp [do_checkin, h, h2]
    | some e =>
      have h2 : locatedSubmit env2 = some e := by rw [hloc, h]
      by_cases hck : env.clickOk = true <;>
        simp [do_checkin, h, h2, hck, ← hc]

/-- Claim C4, witness: a run whose navigation and expand steps succeed
and one whose navigation ways and expand step all fail, over the same
page state, return the same result, and success coincides with a located
and clicked submit control. -/
theorem C4_witness :
    ((do_checkin c4envA).result = true ↔
      ((do_checkin c4envA).submitFound.isSome = true ∧
        (do_checkin c4envA).clickIssued = true)) ∧
    (do_checkin c4envA).result = (do_checkin c4envB).result :=
  C4_theorem c4envA c4envB rfl rfl rfl

/-- Claim C6, counterexample: with the 7-entry chain exhausted and an
inventory holding one button whose inner text strictly contains the
target label without being equal to it, the last-resort scan still
selects that button, so the scan does not match by exact inner text. -/
theorem C6_counterexample :
    (do_checkin c6env).submitFound = some c6btn.el ∧
    (do_checkin c6env).result = true ∧
    c6btn.el.innerText ≠ submitLabel := by decide

/-- Claim C6, amended: when the 7-entry prioritized chain is exhausted
without a match, the last-resort scan selects the first readable button
whose inner text contains the target submit label as a substring (the
Python membership test), not requiring exact inner-text equality; in
particular every selected button's inner text contains the label. -/
theorem C6_theorem (env : CheckinEnv)
    (hex : ∀ s ∈ selectors, env.evalSel s = SelOutcome.timeout) :
    (do_checkin env).submitFound = Option.map BtnEntry.el
      (List.find? (fun b => b.readOk && pyMem submitLabel b.el.innerText) env.buttons) ∧
    (∀ e, (do_checkin env).submitFound = some e →
      pyMem submitLabel e.innerText = true) := by
  have hchain : (locate env.evalSel selectors).1 = none := by
    rw [show locate env.evalSel selectors = locateFrom env.evalSel none selectors from rfl,
      locateFrom_exhausted env.evalSel none selectors hex]
  have hfound : (do_checkin env).submitFound = scanButtons env.buttons := by
    rw [do_checkin_submitFound]
    simp [locatedSubmit, hchain]
  constructor
  · rw [hfound, scanButtons_find]
  · intro e he
    rw [hfound, scanButtons_find] at he
    obtain ⟨b, hb, hbe⟩ := Option.map_eq_some'.mp he
    have hp := List.find?_some hb
    have := (Bool.and_eq_true _ _).mp hp
    rw [← hbe]
    exact this.2

/-- Claim C6, witness: on the exhausted-chain page the scan picks the
first containing button, whose text properly contains the label. -/
theorem C6_witness :
    (do_checkin c6env).submitFound = Option.map BtnEntry.el
      (List.find? (fun b => b.readOk && pyMem submitLabel b.el.innerText) c6env.buttons) ∧
    pyMem submitLabel c6btn.el.innerText = true :=
  ⟨ ( C6_theorem c6env (fun _ _ => rfl)).1,
   ( C6_theorem c6env (fun _ _ => rfl)).2 c6btn.el (by decide)⟩

/-- Claim C5, counterexample: when the two required secrets come neither
from the environment nor from positional arguments, `main` logs an error
and returns plainly, so the process exits with code 0 — not with a
non-zero code as the claim states. -/
theorem C5_counterexample :
    c5miss.envUsername = "" ∧ c5miss.envPassword = "" ∧ c5miss.argv.length < 3 ∧
    main c5miss = 0 := by decide

/-- Claim C5, amended: the program exits with code 0 when the run
reports success and with a non-zero code when the run reports failure,
but when the two required secrets are provided neither via environment
variables nor via positional arguments it returns early and the process
exits with code 0. -/
theorem C5_theorem (m : MainEnv) :
    ((m.envUsername = "" ∨ m.envPassword = "") → m.argv.length < 3 → main m = 0) ∧
    ((¬(m.envUsername = "" ∨ m.envPassword = "") ∨ 3 ≤ m.argv.length) →
      (main m = 0 ↔ m.runSuccess = true)) := by
  constructor
  · intro hmiss hlen
    have hnot : ¬ 3 ≤ m.argv.length := by omega
    unfold main
    rw [if_pos hmiss, if_neg hnot]
  · intro hcase
    rcases hcase with hboth | hlen
    · unfold main
      rw [if_neg hboth]
      cases hr : m.runSuccess <;> simp [hr]
    · by_cases hmiss : m.envUsername = "" ∨ m.envPassword = ""
      · unfold main
        rw [if_pos hmiss, if_pos hlen]
        cases hr : m.runSuccess <;> simp [hr]
      · unfold main
        rw [if_neg hmiss]
        cases hr : m.runSuccess <;> simp [hr]

/-- Claim C5, witness: the secrets-missing start exits 0, and a
credentialed failing run exits non-zero (its exit code is 0 only if the
run succeeded, which it did not). -/
theorem C5_witness :
    main c5miss = 0 ∧ (main c5run = 0 ↔ c5run.runSuccess = true) :=
  ⟨ ( C5_theorem c5miss).1 (Or.inl rfl) (by decide),
   ( C5_theorem c5run).2 (Or.inl (by decide))⟩

/-- Claim C10: whenever the app token or the recipient uid is the empty
string, `send_notification` returns immediately without attempting any
HTTP request; with both nonempty it does attempt one. -/
theorem C10_theorem (app_token uid title message : String) :
    ((app_token = "" ∨ uid = "") →
      send_notification app_token uid title message = none) ∧
    (app_token ≠ "" → uid ≠ "" →
      (send_notification app_token uid title message).isSome = true) := by
  constructor
  · intro h
    unfold send_notification
    rw [if_pos h]
  · intro h1 h2
    have hnot : ¬(app_token = "" ∨ uid = "") := by
      intro h
      rcases h with h | h
      · exact h1 h
      · exact h2 h
    unfold send_notification
    rw [if_neg hnot]
    rfl

/-- Claim C10, witness: an empty app token suppresses the request, and a
fully configured call attempts one. -/
theorem C10_witness :
    send_notification "" "UID_xyz" "title" "msg" = none ∧
    (send_notification "AT_abc" "UID_xyz" "title" "msg").isSome = true :=
  ⟨ ( C10_theorem "" "UID_xyz" "title" "msg").1 (Or.inl rfl),
   ( C10_theorem "AT_abc" "UID_xyz" "title" "msg").2 (by decide) (by decide)⟩

end AutoCheckin
